import Mathlib

/-!
Verification of the ombi-perso frontend-v2 client core: the request status
model, the Pinia stores (requests, search, auth) and the router navigation
guard, embedded shallowly as pure Lean functions over explicit state records.
Remote calls are modelled by passing the collaborator's outcome
(`Except (Option String) α`, the `Option String` being the JS `err.message`,
possibly `undefined`) as an explicit oracle argument; a store action that does
not reach the remote call ignores that argument.
-/

namespace OmbiPerso

/-- The closed 8-value request lifecycle enumeration
(`src/frontend-v2/src/types/api.ts`, `RequestStatus`). -/
inductive RequestStatus where
  | pending
  | searching
  | awaiting_approval
  | downloading
  | processing
  | completed
  | error
  | cancelled
deriving DecidableEq, Repr

/-- The runtime string value of a `RequestStatus` (the TS union members are
string literals). -/
def RequestStatus.key : RequestStatus → String
  | .pending => "pending"
  | .searching => "searching"
  | .awaiting_approval => "awaiting_approval"
  | .downloading => "downloading"
  | .processing => "processing"
  | .completed => "completed"
  | .error => "error"
  | .cancelled => "cancelled"

/-- `MediaRequest` entity (`src/frontend-v2/src/types/api.ts`). Optional TS
fields become `Option`; JSON numbers that are ids/years are integers here. -/
structure MediaRequest where
  id : Int
  user_id : Int
  username : Option String
  media_type : String
  external_id : String
  source : String
  title : String
  original_title : Option String
  year : Option Int
  poster_url : Option String
  overview : Option String
  quality_preference : String
  seasons_requested : Option String
  status : RequestStatus
  status_message : Option String
  celery_task_id : Option String
  created_at : String
  updated_at : String
  completed_at : Option String
deriving DecidableEq, Repr

/-- `User` entity (`src/frontend-v2/src/types/api.ts`). -/
structure User where
  id : Int
  username : String
  email : String
  role : String
  status : String
  is_active : Bool
  created_at : String
deriving DecidableEq, Repr

/-- `SearchResult` entity (`src/frontend-v2/src/types/api.ts`); the
`vote_average` JSON number is modelled as a rational. -/
structure SearchResult where
  id : String
  title : String
  original_title : Option String
  year : Option Int
  media_type : String
  poster_url : Option String
  overview : Option String
  vote_average : Option Rat
  source : String
deriving DecidableEq, Repr

/-- JS `m || fallback` on an error message: `undefined` (`none`) and the empty
string are falsy and replaced by the fallback. -/
def jsOr (m : Option String) (fallback : String) : String :=
  match m with
  | none => fallback
  | some v => if v = "" then fallback else v

/-! ## RequestStore (`src/frontend-v2/src/stores/requests.ts`) -/

/-- State of the `requests` Pinia store: the cached request sequence, the
loading flag and the last error message. -/
structure RequestsState where
  requests : List MediaRequest
  loading : Bool
  error : Option String
deriving DecidableEq, Repr

/-- Derived view `pendingRequests`: entries whose status is in
`['pending', 'searching', 'downloading', 'processing']`. -/
def pendingRequests (requests : List MediaRequest) : List MediaRequest :=
  requests.filter (fun r =>
    decide (r.status ∈ [RequestStatus.pending, .searching, .downloading, .processing]))

/-- Derived view `completedRequests`: entries with status `completed`. -/
def completedRequests (requests : List MediaRequest) : List MediaRequest :=
  requests.filter (fun r => decide (r.status = .completed))

/-- Derived view `failedRequests`: entries with status `error`. -/
def failedRequests (requests : List MediaRequest) : List MediaRequest :=
  requests.filter (fun r => decide (r.status = .error))

/-- Creation descriptor accepted by `createRequest` (its `data` parameter). -/
structure CreateRequestData where
  media_type : String
  external_id : String
  source : String
  title : String
  original_title : Option String
  year : Option Int
  poster_url : Option String
  overview : Option String
  quality_preference : Option String
  seasons_requested : Option String
deriving DecidableEq, Repr

/-- `createRequest(data)`: sets loading and clears the error, forwards `data`
to `api.createRequest`; on success unshifts the returned request and returns
`true`; on failure records `err.message || 'Erreur de création de la requête'`
and returns `false`; `finally` clears loading. The remote outcome is the
`apiResult` oracle. -/
def createRequest (s : RequestsState) (_data : CreateRequestData)
    (apiResult : Except (Option String) MediaRequest) : RequestsState × Bool :=
  match apiResult with
  | .ok newRequest =>
      ({ s with requests := newRequest :: s.requests, loading := false, error := none }, true)
  | .error m =>
      ({ s with loading := false, error := some (jsOr m "Erreur de création de la requête") }, false)

/-- The cancel-failure fallback message, `'Erreur d\'annulation de la requête'`
(built by code point to keep the source file ASCII-quote-free). -/
def cancelErrorMsg : String :=
  "Erreur d" ++ String.mk [Char.ofNat 39] ++ "annulation de la requête"

/-- `cancelRequest(id)`: sets loading and clears the error, calls
`api.cancelRequest(id)`; on success keeps only the entries with `r.id !== id`
and returns `true`; on failure records the error message and returns `false`;
`finally` clears loading. -/
def cancelRequest (s : RequestsState) (id : Int)
    (apiResult : Except (Option String) Unit) : RequestsState × Bool :=
  match apiResult with
  | .ok _ =>
      ({ s with requests := s.requests.filter (fun r => decide (r.id ≠ id)),
                loading := false, error := none }, true)
  | .error m =>
      ({ s with loading := false, error := some (jsOr m cancelErrorMsg) }, false)

/-! ## SearchStore (second store in `src/frontend-v2/src/stores/requests.ts`) -/

/-- State of the `search` Pinia store. -/
structure SearchState where
  results : List SearchResult
  loading : Bool
  error : Option String
  lastQuery : String
  selectedMediaType : String
deriving DecidableEq, Repr

/-- JS `String.prototype.trim`, modelled structurally (drop whitespace from
both ends) so that it evaluates inside the kernel. -/
def jsTrim (s : String) : String :=
  String.mk (((s.data.dropWhile Char.isWhitespace).reverse.dropWhile
    Char.isWhitespace).reverse)

/-- Whether `search` reaches its remote call: the guard `if (!query.trim())`
returns early on an empty or whitespace-only query. -/
def searchInvokesRemote (query : String) : Bool :=
  !(decide (jsTrim query = ""))

/-- The synchronous prefix of `search(query, mediaType)` up to the `await`:
on a blank query it clears `results` and returns; otherwise it sets loading,
clears the error and records `lastQuery` / `selectedMediaType`. -/
def searchStart (s : SearchState) (query mediaType : String) : SearchState :=
  if jsTrim query = "" then
    { s with results := [] }
  else
    { s with loading := true, error := none,
             lastQuery := query, selectedMediaType := mediaType }

/-- The continuation of `search` after `api.searchMedia` resolves: success
replaces `results`; failure records `err.message || 'Erreur de recherche'` and
clears `results`; `finally` clears loading. -/
def searchFinish (s : SearchState)
    (apiResult : Except (Option String) (List SearchResult)) : SearchState :=
  match apiResult with
  | .ok res => { s with results := res, loading := false }
  | .error m =>
      { s with error := some (jsOr m "Erreur de recherche"), results := [], loading := false }

/-- Whole-action view of `search(query, mediaType)`; the oracle is consumed
only when the blank-query guard does not fire. -/
def search (s : SearchState) (query mediaType : String)
    (apiResult : Except (Option String) (List SearchResult)) : SearchState :=
  if searchInvokesRemote query then
    searchFinish (searchStart s query mediaType) apiResult
  else
    searchStart s query mediaType

/-! ## AuthGate (`src/frontend-v2/src/stores/auth.ts`) -/

/-- State of the `auth` Pinia store plus the one persisted item, the
`localStorage['token']` slot (`storedToken`). -/
structure AuthState where
  token : Option String
  user : Option User
  loading : Bool
  error : Option String
  storedToken : Option String
deriving DecidableEq, Repr

/-- JS truthiness of a `string | null` value: `null` and `''` are falsy. -/
def truthy (v : Option String) : Bool :=
  match v with
  | none => false
  | some t => !t.isEmpty

/-- Getter `isAuthenticated`: `!!token.value && !!user.value`. -/
def isAuthenticated (s : AuthState) : Bool :=
  truthy s.token && s.user.isSome

/-- Getter `isAdmin`: `user.value?.role === 'admin'` (false when no user). -/
def isAdmin (s : AuthState) : Bool :=
  match s.user with
  | some u => decide (u.role = "admin")
  | none => false

/-- `fetchCurrentUser()`: early-returns when the token is falsy; otherwise sets
loading, clears the error and awaits `api.getCurrentUser`; success installs the
user; failure records `err.message` (no fallback) and clears the in-memory
token, the user and the persisted token; `finally` clears loading. -/
def fetchCurrentUser (s : AuthState)
    (apiResult : Except (Option String) User) : AuthState :=
  if !truthy s.token then s
  else
    match apiResult with
    | .ok u => { s with user := some u, loading := false, error := none }
    | .error m =>
        { s with error := m, token := none, user := none,
                 storedToken := none, loading := false }

/-! ## Router guard (`src/frontend-v2/src/router/index.ts`) -/

/-- The `meta` flags a route may carry; a missing flag is falsy. -/
structure RouteMeta where
  requiresGuest : Bool
  requiresAuth : Bool
  requiresAdmin : Bool
deriving DecidableEq, Repr

/-- The target of a navigation: its meta flags and its full path. -/
structure RouteTo where
  meta : RouteMeta
  fullPath : String
deriving DecidableEq, Repr

/-- Outcome of the guard: `allow` is `next()`, `toHome` is
`next({name: 'home'})`, `toLogin r` is
`next({name: 'login', query: {redirect: r}})`. -/
inductive NavDecision where
  | allow
  | toHome
  | toLogin (redirect : String)
deriving DecidableEq, Repr

/-- `router.beforeEach`: guest-only routes bounce authenticated sessions home;
auth-required routes bounce unauthenticated sessions to login with the
intended path as the `redirect` query; admin routes bounce non-admins home;
otherwise the navigation proceeds. -/
def beforeEach (dest : RouteTo) (auth : AuthState) : NavDecision :=
  if dest.meta.requiresGuest && isAuthenticated auth then .toHome
  else if dest.meta.requiresAuth && !isAuthenticated auth then .toLogin dest.fullPath
  else if dest.meta.requiresAdmin && !isAdmin auth then .toHome
  else .allow

/-! ## StatusBadge (`StatusBadge.vue`) and RequestCard (`RequestCard.vue`) -/

/-- The `configs` record of `StatusBadge.vue`, keyed by the status string. -/
def statusConfigs : List (String × String × String) :=
  [("pending", ("⏳", "En attente")),
   ("searching", ("🔍", "Recherche")),
   ("awaiting_approval", ("⚠️", "Approbation requise")),
   ("downloading", ("⬇️", "Téléchargement")),
   ("processing", ("⚙️", "Traitement")),
   ("completed", ("✅", "Complété")),
   ("error", ("❌", "Erreur")),
   ("cancelled", ("🚫", "Annulé"))]

/-- `statusConfig` computed: `configs[props.status] || {icon: '❓', label:
props.status}` — the known entry, else the fallback pair. Returns
`(icon, label)`. -/
def statusConfig (status : String) : String × String :=
  (statusConfigs.lookup status).getD ("❓", status)

/-- `canCancel` computed of `RequestCard.vue`:
`['pending', 'searching', 'awaiting_approval'].includes(status)`. -/
def canCancel (status : RequestStatus) : Bool :=
  decide (status ∈ [RequestStatus.pending, .searching, .awaiting_approval])

/-! ## Concrete fixtures used by witnesses -/

/-- A concrete `MediaRequest` with a chosen id and status. -/
def exampleRequest (id : Int) (st : RequestStatus) : MediaRequest :=
  { id := id, user_id := 1, username := none, media_type := "movie",
    external_id := "603", source := "tmdb", title := "The Matrix",
    original_title := none, year := some 1999, poster_url := none,
    overview := none, quality_preference := "1080p", seasons_requested := none,
    status := st, status_message := none, celery_task_id := none,
    created_at := "2024-01-01", updated_at := "2024-01-02", completed_at := none }

/-- One request per status value, ids 1..8. -/
def allStatusRequests : List MediaRequest :=
  [exampleRequest 1 .pending, exampleRequest 2 .searching,
   exampleRequest 3 .awaiting_approval, exampleRequest 4 .downloading,
   exampleRequest 5 .processing, exampleRequest 6 .completed,
   exampleRequest 7 .error, exampleRequest 8 .cancelled]

/-! ## Claims about the RequestStore -/

/-- C1: `pendingRequests` holds exactly the entries with status in
{pending, searching, downloading, processing}, `completedRequests` exactly the
`completed` ones, `failedRequests` exactly the `error` ones; a `cancelled` or
`awaiting_approval` entry is in none of the three views, and over a sequence
holding one entry per status the three view lengths sum to 6. -/
theorem derivedViews_spec (requests : List MediaRequest) :
    (∀ r, r ∈ pendingRequests requests ↔ r ∈ requests ∧
      (r.status = .pending ∨ r.status = .searching ∨
       r.status = .downloading ∨ r.status = .processing)) ∧
    (∀ r, r ∈ completedRequests requests ↔ r ∈ requests ∧ r.status = .completed) ∧
    (∀ r, r ∈ failedRequests requests ↔ r ∈ requests ∧ r.status = .error) ∧
    (∀ r ∈ requests, r.status = .cancelled ∨ r.status = .awaiting_approval →
      r ∉ pendingRequests requests ∧ r ∉ completedRequests requests ∧
      r ∉ failedRequests requests) ∧
    ((requests.map MediaRequest.status).Perm
        [RequestStatus.pending, .searching, .awaiting_approval, .downloading,
         .processing, .completed, .error, .cancelled] →
      (pendingRequests requests).length + (completedRequests requests).length +
        (failedRequests requests).length = 6) := by
  refine ⟨?_, ?_, ?_, ?_, ?_⟩
  · intro r
    simp [pendingRequests, List.mem_filter]
  · intro r
    simp [completedRequests, List.mem_filter]
  · intro r
    simp [failedRequests, List.mem_filter]
  · intro r hr hst
    rcases hst with h | h <;>
      simp [pendingRequests, completedRequests, failedRequests, List.mem_filter, h]
  · intro hperm
    have hp : (pendingRequests requests).length =
        (requests.map MediaRequest.status).countP
          (fun st => decide (st ∈ [RequestStatus.pending, .searching, .downloading,
            .processing])) := by
      simp only [pendingRequests, ← List.countP_eq_length_filter, List.countP_map]
      rfl
    have hc : (completedRequests requests).length =
        (requests.map MediaRequest.status).countP
          (fun st => decide (st = RequestStatus.completed)) := by
      simp only [completedRequests, ← List.countP_eq_length_filter, List.countP_map]
      rfl
    have hf : (failedRequests requests).length =
        (requests.map MediaRequest.status).countP
          (fun st => decide (st = RequestStatus.error)) := by
      simp only [failedRequests, ← List.countP_eq_length_filter, List.countP_map]
      rfl
    rw [hp, hc, hf, hperm.countP_eq, hperm.countP_eq, hperm.countP_eq]
    decide

/-- C1 witness: the sum-is-6 regression check on a concrete
one-request-per-status sequence. -/
theorem derivedViews_spec_witness :
    (allStatusRequests.map MediaRequest.status).Perm
      [RequestStatus.pending, .searching, .awaiting_approval, .downloading,
       .processing, .completed, .error, .cancelled] ∧
    (pendingRequests allStatusRequests).length +
      (completedRequests allStatusRequests).length +
      (failedRequests allStatusRequests).length = 6 :=
  ⟨by decide, (derivedViews_spec allStatusRequests).2.2.2.2 (by decide)⟩

/-- C2: a successful `createRequest` prepends the server-returned request
(length grows by one, new entry first, prior entries unchanged in order) and
returns true; a failed one leaves the sequence unchanged, sets the error field
and returns false. -/
theorem createRequest_spec (s : RequestsState) (d : CreateRequestData) :
    (∀ req : MediaRequest,
      (createRequest s d (.ok req)).1.requests.length = s.requests.length + 1 ∧
      (createRequest s d (.ok req)).1.requests.head? = some req ∧
      (createRequest s d (.ok req)).1.requests.tail = s.requests ∧
      (createRequest s d (.ok req)).2 = true) ∧
    (∀ m : Option String,
      (createRequest s d (.error m)).1.requests = s.requests ∧
      ((createRequest s d (.error m)).1.error).isSome = true ∧
      (createRequest s d (.error m)).2 = false) := by
  constructor
  · intro req
    simp [createRequest]
  · intro m
    simp [createRequest]

/-- Splitting a filter that drops one id: under unique ids the entry with the
target id, when present, is removed and everything else kept in order. -/
theorem filter_ne_id_of_nodup (id : Int) :
    ∀ rs : List MediaRequest, (rs.map MediaRequest.id).Nodup →
      (∀ r ∈ rs, r.id ≠ id) ∨
      ∃ pre r post, rs = pre ++ r :: post ∧ r.id = id ∧
        rs.filter (fun q => decide (q.id ≠ id)) = pre ++ post := by
  intro rs
  induction rs with
  | nil =>
      intro _
      left
      intro r hr
      cases hr
  | cons a t ih =>
      intro hnodup
      rw [List.map_cons, List.nodup_cons] at hnodup
      by_cases hid : a.id = id
      · right
        refine ⟨[], a, t, rfl, hid, ?_⟩
        have hall : ∀ q ∈ t, q.id ≠ id := by
          intro q hq hq'
          exact hnodup.1 (hid ▸ hq' ▸ List.mem_map_of_mem MediaRequest.id hq)
        simp only [List.filter_cons, hid]
        simp only [decide_not, decide_eq_true_eq] at *
        rw [if_neg (by simp)]
        rw [List.filter_eq_self.mpr (by intro q hq; simpa using hall q hq)]
        simp
      · rcases ih hnodup.2 with hnone | ⟨pre, r, post, heq, hrid, hfil⟩
        · left
          intro r hr
          rcases List.mem_cons.mp hr with rfl | hr'
          · exact hid
          · exact hnone r hr'
        · right
          refine ⟨a :: pre, r, post, by simp [heq], hrid, ?_⟩
          simp only [List.filter_cons]
          rw [if_pos (by simpa using hid), hfil]
          simp

/-- C3: under unique ids, a successful `cancelRequest id` removes exactly the
entry with that id (no change at all when no entry matches), keeping the rest
in order, and returns true; a failed one leaves the sequence unchanged, sets
the error field and returns false. -/
theorem cancelRequest_spec (s : RequestsState) (id : Int)
    (hnodup : (s.requests.map MediaRequest.id).Nodup) :
    ((∀ r ∈ s.requests, r.id ≠ id) ∧
        (cancelRequest s id (.ok ())).1.requests = s.requests ∨
      ∃ pre r post, s.requests = pre ++ r :: post ∧ r.id = id ∧
        (cancelRequest s id (.ok ())).1.requests = pre ++ post) ∧
    (cancelRequest s id (.ok ())).2 = true ∧
    (∀ m : Option String,
      (cancelRequest s id (.error m)).1.requests = s.requests ∧
      ((cancelRequest s id (.error m)).1.error).isSome = true ∧
      (cancelRequest s id (.error m)).2 = false) := by
  refine ⟨?_, by simp [cancelRequest], by intro m; simp [cancelRequest]⟩
  rcases filter_ne_id_of_nodup id s.requests hnodup with hnone | ⟨pre, r, post, heq, hrid, hfil⟩
  · left
    refine ⟨hnone, ?_⟩
    simp only [cancelRequest]
    exact List.filter_eq_self.mpr (by intro q hq; simpa using hnone q hq)
  · right
    exact ⟨pre, r, post, heq, hrid, by simpa [cancelRequest] using hfil⟩

/-- C3 witness: cancelling id 1 in a concrete two-request store succeeds. -/
theorem cancelRequest_spec_witness :
    (([exampleRequest 1 .pending, exampleRequest 2 .completed].map
        MediaRequest.id).Nodup) ∧
    (cancelRequest ⟨[exampleRequest 1 .pending, exampleRequest 2 .completed],
        false, none⟩ 1 (.ok ())).2 = true :=
  ⟨by decide,
   (cancelRequest_spec ⟨[exampleRequest 1 .pending, exampleRequest 2 .completed],
      false, none⟩ 1 (by decide)).2.1⟩

/-! ## Claims about the SearchStore -/

/-- C5: on an empty or whitespace-only query, `search` clears `results` and
changes nothing else, and the remote collaborator is not invoked (the result
is the early-return state for every oracle value). -/
theorem search_blank_spec (s : SearchState) (query mediaType : String)
    (apiResult : Except (Option String) (List SearchResult))
    (h : jsTrim query = "") :
    search s query mediaType apiResult = { s with results := [] } ∧
    (search s query mediaType apiResult).results = [] ∧
    searchInvokesRemote query = false := by
  refine ⟨?_, ?_, ?_⟩ <;>
    simp [search, searchInvokesRemote, searchStart, h]

/-- C5 witness: a whitespace-only query on a concrete store state. -/
theorem search_blank_spec_witness :
    jsTrim "   " = "" ∧
    search ⟨[], false, none, "", "all"⟩ "   " "all" (.ok []) =
      ⟨[], false, none, "", "all"⟩ ∧
    (search ⟨[], false, none, "", "all"⟩ "   " "all" (.ok [])).results = [] ∧
    searchInvokesRemote "   " = false :=
  ⟨by decide,
   search_blank_spec ⟨[], false, none, "", "all"⟩ "   " "all" (.ok []) (by decide)⟩

/-- C6: on a non-blank query, the synchronous prefix of `search` sets the
loading flag; success replaces `results` with the response, failure records an
error and clears `results`; in both outcomes the final loading flag is
false. -/
theorem search_nonblank_spec (s : SearchState) (query mediaType : String)
    (h : jsTrim query ≠ "") :
    (searchStart s query mediaType).loading = true ∧
    (∀ res : List SearchResult,
      (search s query mediaType (.ok res)).results = res ∧
      (search s query mediaType (.ok res)).loading = false) ∧
    (∀ m : Option String,
      ((search s query mediaType (.error m)).error).isSome = true ∧
      (search s query mediaType (.error m)).results = [] ∧
      (search s query mediaType (.error m)).loading = false) := by
  refine ⟨?_, ?_, ?_⟩ <;>
    simp [search, searchInvokesRemote, searchStart, searchFinish, h]

/-- C6 witness: a concrete non-blank query, exercising success and failure. -/
theorem search_nonblank_spec_witness :
    jsTrim "matrix" ≠ "" ∧
    (searchStart ⟨[], false, none, "", "all"⟩ "matrix" "movie").loading = true ∧
    (search ⟨[], false, none, "", "all"⟩ "matrix" "movie" (.error none)).results = [] :=
  ⟨by decide,
   (search_nonblank_spec ⟨[], false, none, "", "all"⟩ "matrix" "movie" (by decide)).1,
   ((search_nonblank_spec ⟨[], false, none, "", "all"⟩ "matrix" "movie"
      (by decide)).2.2 none).2.1⟩

/-! ## Claims about the AuthGate -/

/-- C4: with a (truthy) token present, a failing `fetchCurrentUser` fails
closed: token and user become null, the persisted token is removed, and
`isAuthenticated` is false afterwards. -/
theorem fetchCurrentUser_fail_spec (s : AuthState) (m : Option String)
    (h : truthy s.token = true) :
    (fetchCurrentUser s (.error m)).token = none ∧
    (fetchCurrentUser s (.error m)).user = none ∧
    (fetchCurrentUser s (.error m)).storedToken = none ∧
    isAuthenticated (fetchCurrentUser s (.error m)) = false := by
  simp only [fetchCurrentUser, h]
  simp [isAuthenticated, truthy]

/-- C4 witness: a concrete restored-token state whose user fetch fails. -/
theorem fetchCurrentUser_fail_spec_witness :
    truthy (some "tok") = true ∧
    isAuthenticated
      (fetchCurrentUser ⟨some "tok", none, false, none, some "tok"⟩ (.error none)) =
      false :=
  ⟨by decide,
   (fetchCurrentUser_fail_spec ⟨some "tok", none, false, none, some "tok"⟩ none
      (by decide)).2.2.2⟩

/-- C10: with no token present, `fetchCurrentUser` is a complete no-op: the
state is returned unchanged whatever the oracle, so the remote collaborator is
never consulted and user, loading and error are untouched. -/
theorem fetchCurrentUser_noToken_spec (s : AuthState)
    (apiResult : Except (Option String) User) (h : s.token = none) :
    fetchCurrentUser s apiResult = s := by
  simp [fetchCurrentUser, truthy, h]

/-- C10 witness: a concrete tokenless state is untouched even when the oracle
would deliver a user. -/
theorem fetchCurrentUser_noToken_spec_witness :
    (⟨none, none, false, none, none⟩ : AuthState).token = none ∧
    fetchCurrentUser ⟨none, none, false, none, none⟩
        (.ok ⟨7, "alice", "a@b.c", "admin", "active", true, "2024-01-01"⟩) =
      ⟨none, none, false, none, none⟩ :=
  ⟨rfl,
   fetchCurrentUser_noToken_spec ⟨none, none, false, none, none⟩
     (.ok ⟨7, "alice", "a@b.c", "admin", "active", true, "2024-01-01"⟩) rfl⟩

/-! ## Claim about the router guard -/

/-- C9: the guard's three predicates fire in fixed order: guest-only and
authenticated redirects home; else auth-required and unauthenticated redirects
to login carrying the intended full path; else admin-required and non-admin
redirects home; else the navigation is allowed. -/
theorem beforeEach_spec (dest : RouteTo) (auth : AuthState) :
    ((dest.meta.requiresGuest = true ∧ isAuthenticated auth = true) →
      beforeEach dest auth = .toHome) ∧
    (¬(dest.meta.requiresGuest = true ∧ isAuthenticated auth = true) →
      dest.meta.requiresAuth = true → isAuthenticated auth = false →
      beforeEach dest auth = .toLogin dest.fullPath) ∧
    (¬(dest.meta.requiresGuest = true ∧ isAuthenticated auth = true) →
      ¬(dest.meta.requiresAuth = true ∧ isAuthenticated auth = false) →
      dest.meta.requiresAdmin = true → isAdmin auth = false →
      beforeEach dest auth = .toHome) ∧
    (¬(dest.meta.requiresGuest = true ∧ isAuthenticated auth = true) →
      ¬(dest.meta.requiresAuth = true ∧ isAuthenticated auth = false) →
      ¬(dest.meta.requiresAdmin = true ∧ isAdmin auth = false) →
      beforeEach dest auth = .allow) := by
  obtain ⟨⟨g, a, adm⟩, path⟩ := dest
  cases g <;> cases a <;> cases adm <;>
    cases hauth : isAuthenticated auth <;>
    cases hadm : isAdmin auth <;>
    simp [beforeEach, hauth, hadm]

/-- C9 witness: an unauthenticated navigation to an auth-required route is
sent to login with the intended path. -/
theorem beforeEach_spec_witness :
    beforeEach ⟨⟨false, true, false⟩, "/search"⟩ ⟨none, none, false, none, none⟩ =
      .toLogin "/search" :=
  (beforeEach_spec ⟨⟨false, true, false⟩, "/search"⟩
      ⟨none, none, false, none, none⟩).2.1 (by decide) rfl (by decide)

/-! ## Claims about the presentation components -/

/-- C7: the status badge mapping is total: each of the 8 status values has an
explicit entry with non-empty icon and label, and any string outside the known
set maps to the fallback pair (generic marker icon, the raw string as
label). -/
theorem statusConfig_spec :
    (∀ st : RequestStatus,
      (statusConfigs.lookup st.key).isSome = true ∧
      (statusConfig st.key).1 ≠ "" ∧ (statusConfig st.key).2 ≠ "") ∧
    (∀ s : String, (∀ st : RequestStatus, s ≠ st.key) →
      statusConfig s = ("❓", s)) := by
  constructor
  · intro st
    cases st <;> refine ⟨by decide, by decide, by decide⟩
  · intro s h
    have h1 : (s == "pending") = false := beq_eq_false_iff_ne.mpr (h .pending)
    have h2 : (s == "searching") = false := beq_eq_false_iff_ne.mpr (h .searching)
    have h3 : (s == "awaiting_approval") = false :=
      beq_eq_false_iff_ne.mpr (h .awaiting_approval)
    have h4 : (s == "downloading") = false := beq_eq_false_iff_ne.mpr (h .downloading)
    have h5 : (s == "processing") = false := beq_eq_false_iff_ne.mpr (h .processing)
    have h6 : (s == "completed") = false := beq_eq_false_iff_ne.mpr (h .completed)
    have h7 : (s == "error") = false := beq_eq_false_iff_ne.mpr (h .error)
    have h8 : (s == "cancelled") = false := beq_eq_false_iff_ne.mpr (h .cancelled)
    simp [statusConfig, statusConfigs, List.lookup,
      h1, h2, h3, h4, h5, h6, h7, h8]

/-- C7 witness: a string outside the known set gets the fallback pair. -/
theorem statusConfig_spec_witness :
    (∀ st : RequestStatus, "torrenting" ≠ st.key) ∧
    statusConfig "torrenting" = ("❓", "torrenting") :=
  ⟨by intro st; cases st <;> decide,
   statusConfig_spec.2 "torrenting" (by intro st; cases st <;> decide)⟩

/-- C8: `canCancel` holds exactly on pending, searching and awaiting_approval,
and is false on the other five status values. -/
theorem canCancel_spec :
    ∀ st : RequestStatus,
      (canCancel st = true ↔
        st = .pending ∨ st = .searching ∨ st = .awaiting_approval) ∧
      ((st = .downloading ∨ st = .processing ∨ st = .completed ∨
        st = .error ∨ st = .cancelled) → canCancel st = false) := by
  intro st
  cases st <;> simp [canCancel]

/-- C8 witness: concrete evaluations on a cancellable and a non-cancellable
status. -/
theorem canCancel_spec_witness :
    canCancel .pending = true ∧ canCancel .downloading = false :=
  ⟨(canCancel_spec .pending).1.mpr (Or.inl rfl),
   (canCancel_spec .downloading).2 (Or.inl rfl)⟩

end OmbiPerso
